import Mathlib

/-!
Verification of the Monte-Carlo radial-velocity estimator of MUSEpack
(`src/MUSEpack/ppxf_MC.py`), as a shallow embedding over exact rationals.

Modelling conventions, which apply throughout this file:

* Python float arithmetic is idealized as exact rational arithmetic (`ℚ`).
* numpy arrays are `List ℚ`; index arrays are `List ℕ`.
* Python exceptions are modelled with `Except PyError`; the constructors of
  `PyError` name the concrete Python exception classes that the code can
  actually raise on the modelled paths.
* The external black-box collaborators are passed in as explicit function
  arguments: the ppxf kinematic fitter (`ppxf.ppxf(...)`, whose keyword
  arguments become the fields of `FitCall`), the lmfit nonlinear
  least-squares engine `Model(_gaussian_fit).fit` (`CurveFitter`), and the
  transcendental functions `np.exp` and `np.sqrt` (`qexp`, `qsqrt`), which
  have no exact rational counterpart.
* Randomness is threaded explicitly: `normals t i` is the i-th standard
  normal draw of bootstrap trial `t` (`np.random.normal(size=len(goodpixels))`),
  and `uniforms t` is trial t's uniform draw on [-1, 1]
  (`np.random.uniform(-1.0, 1.0)`).  The worker pool returns trial results
  in argument order, and trial-level concurrency itself is not modelled.
-/

/-- The Python exceptions that the modelled code paths can raise.
`attributeError` is `AttributeError` (e.g. calling `.any()` on `None`),
`indexError` is `IndexError` (out-of-range numpy indexing),
`valueError` is `ValueError` (raised by lmfit's default
`nan_policy='raise'` on non-finite fit input, and by
`multiprocessing.Pool` when constructed with a worker count below 1), and
`fitError` stands for a failure raised inside the external ppxf fit
itself. -/
inductive PyError where
  | attributeError
  | indexError
  | valueError
  | fitError
  deriving DecidableEq

instance {ε α : Type} [DecidableEq ε] [DecidableEq α] : DecidableEq (Except ε α) := fun a b =>
  match a, b with
  | .ok x, .ok y =>
    if h : x = y then .isTrue (by rw [h]) else .isFalse (by simp [h])
  | .error e, .error e2 =>
    if h : e = e2 then .isTrue (by rw [h]) else .isFalse (by simp [h])
  | .ok _, .error _ => .isFalse (by simp)
  | .error _, .ok _ => .isFalse (by simp)

/-- Total list indexing with default, written structurally so that proofs by
induction and kernel evaluation are direct.  `nthD d l i` is `l[i]` when
`i < l.length` and `d` otherwise. -/
def nthD {α : Type} (d : α) : List α → ℕ → α
  | [], _ => d
  | x :: _, 0 => x
  | _ :: xs, n + 1 => nthD d xs n

/-- Structural effectful map over a list in the `Except` monad: the first
error aborts the whole traversal.  This models `multiprocessing.Pool.starmap`,
which returns results in argument order and re-raises a worker's exception
to the caller. -/
def emapM {α β : Type} (f : α → Except PyError β) : List α → Except PyError (List β)
  | [] => .ok []
  | a :: l => do
    let b ← f a
    let bs ← emapM f l
    .ok (b :: bs)

/-- Checked numpy-style element access: `a[i]` raises `IndexError` when the
index is out of range. -/
def npGet (l : List ℚ) (i : ℕ) : Except PyError ℚ :=
  if h : i < l.length then .ok l[i] else .error .indexError

/-- The right-hand side of the fancy-indexing assignment on line 229-231 of
`ppxf_MC.py`: for each masked index `i` paired with its normal draw `d`,
the value `log_spec_f[i] + d * log_spec_err[i]`, all read from the original
arrays before any element is written.  numpy raises `IndexError` if any
index is out of range for either array. -/
def perturbRhs (spec err : List ℚ) : List (ℕ × ℚ) → Except PyError (List ℚ) :=
  emapM (fun p => do
    let s ← npGet spec p.1
    let e ← npGet err p.1
    .ok (s + p.2 * e))

/-- Scatter-write `a[indices] = vs` into a copy of `a` (indices first,
values second, target array last): successive positional writes, so with
duplicate indices the last write wins, matching numpy fancy-indexing
assignment. -/
def scatter : List ℕ → List ℚ → List ℚ → List ℚ
  | [], _, a => a
  | i :: is, vs, a =>
    match vs with
    | [] => a
    | v :: vtl => scatter is vtl (a.set i v)

/-- Lines 228-231 of `ppxf_MC.py`:
`log_spec_f = log_spec_f.copy()` followed by
`log_spec_f[goodpixels] = log_spec_f[goodpixels] + np.random.normal(size=len(goodpixels)) * log_spec_err[goodpixels]`.
The embedding is pure, so the caller's array is untouched by construction;
the returned list is the freshly written copy. -/
def perturb (spec err : List ℚ) (gp : List ℕ) (draws : List ℚ) : Except PyError (List ℚ) := do
  let rhs ← perturbRhs spec err (gp.zip draws)
  .ok (scatter gp rhs spec)

/-- Line 234 of `ppxf_MC.py`:
`var_guesses = [sum(x) for x in zip(guesses, [rv_var, 0.0])]`.
Python's `zip` truncates to the shorter argument, exactly like
`List.zipWith`. -/
def var_guesses (guesses : List ℚ) (rv_var : ℚ) : List ℚ :=
  List.zipWith (· + ·) guesses [rv_var, 0]

/-- The argument record of one invocation of the external fitter
`ppxf.ppxf(...)` (lines 236-251 of `ppxf_MC.py`).  Field names follow the
ppxf call signature. -/
structure FitCall where
  templates : List ℚ
  galaxy : List ℚ
  noise : List ℚ
  velscale : ℚ
  start : List ℚ
  goodpixels : List ℕ
  plot : Bool
  degree : ℤ
  moments : ℕ
  vsyst : ℚ
  quiet : Bool
  bias : ℚ
  velscaleRatio : ℕ
  fixed : List ℕ

/-- The `FitCall` built by `_ppxf_bootstrap` (lines 236-251): the perturbed
spectrum as `galaxy`, the perturbed guesses as `start`, and the literal
keyword arguments `plot=False, quiet=1, bias=0, velscale_ratio=1,
fixed=[0, 1]`. -/
def bootstrapCall (template spec2 noise : List ℚ) (velscale : ℚ) (gp : List ℕ)
    (degree : ℤ) (guesses : List ℚ) (moments : ℕ) (vsyst : ℚ) (rv_var : ℚ) : FitCall :=
  { templates := template
    galaxy := spec2
    noise := noise
    velscale := velscale
    start := var_guesses guesses rv_var
    goodpixels := gp
    plot := false
    degree := degree
    moments := moments
    vsyst := vsyst
    quiet := true
    bias := 0
    velscaleRatio := 1
    fixed := [0, 1] }

/-- The type of the external ppxf fitter: from a `FitCall` to the solution
vector `pp1.sol`, or a raised exception. -/
def Fitter : Type := FitCall → Except PyError (List ℚ)

/-- Lines 253-256 of `ppxf_MC.py`: the trial result extracted from
`pp1.sol`, `[sol[0], sol[1]]` for `moments <= 2` and
`[sol[0], sol[1], sol[2], sol[3]]` otherwise; `sol[i]` raises `IndexError`
when the solution vector is too short. -/
def postSol (moments : ℕ) (sol : List ℚ) : Except PyError (List ℚ) :=
  if moments ≤ 2 then do
    let a ← npGet sol 0
    let b ← npGet sol 1
    .ok [a, b]
  else do
    let a ← npGet sol 0
    let b ← npGet sol 1
    let c ← npGet sol 2
    let d ← npGet sol 3
    .ok [a, b, c, d]

/-- The function `_ppxf_bootstrap` (lines 173-258 of `ppxf_MC.py`): perturb
a copy of the spectrum at the good pixels, perturb the RV guess by
`np.random.uniform(-1.0, 1.0) * RV_guess_var` (line 233), call the external
fitter, and extract the fitted moments.  `normdraws` are this trial's
standard-normal draws and `unidraw` its uniform draw on [-1, 1]. -/
def ppxf_bootstrap (f : Fitter) (log_template_f log_spec_f log_spec_err : List ℚ)
    (velscale : ℚ) (degree : ℤ) (gp : List ℕ) (guesses : List ℚ) (moments : ℕ)
    (vsyst : ℚ) (noise : List ℚ) (RV_guess_var : ℚ)
    (normdraws : List ℚ) (unidraw : ℚ) : Except PyError (List ℚ) := do
  let spec2 ← perturb log_spec_f log_spec_err gp normdraws
  let sol ← f (bootstrapCall log_template_f spec2 noise velscale gp degree guesses
    moments vsyst (unidraw * RV_guess_var))
  postSol moments sol

/-- Insertion into a sorted list, the auxiliary step of `qsort`. -/
def insertSorted (x : ℚ) : List ℚ → List ℚ
  | [] => [x]
  | y :: ys => if x ≤ y then x :: y :: ys else y :: insertSorted x ys

/-- Insertion sort, used to model the sorting inside `np.median`. -/
def qsort (l : List ℚ) : List ℚ := l.foldr insertSorted []

/-- `np.median`: middle element of the sorted data for odd length, average
of the two middle elements for even length.  (The value at the empty list
is irrelevant: every use below is guarded by nonemptiness.) -/
def median (l : List ℚ) : ℚ :=
  let s := qsort l
  if s.length % 2 = 1 then nthD 0 s (s.length / 2)
  else (nthD 0 s (s.length / 2 - 1) + nthD 0 s (s.length / 2)) / 2

/-- `astropy.stats.median_absolute_deviation`: the median of the absolute
deviations from the median. -/
def MAD (l : List ℚ) : ℚ := median (l.map (fun x => |x - median l|))

/-- One iteration of `astropy.stats.sigma_clip(..., sigma=sigma, stdfunc=MAD)`
with the default `cenfunc='median'`: keep exactly the values within
`[median - sigma * MAD, median + sigma * MAD]` (astropy masks the values
strictly outside the bounds). -/
def clipStep (sigma : ℚ) (l : List ℚ) : List ℚ :=
  let c := median l
  let s := MAD l
  l.filter (fun x => decide (c - sigma * s ≤ x) && decide (x ≤ c + sigma * s))

/-- The iteration of `sigma_clip` with the astropy default `maxiters=5`:
at most `n` clipping passes, stopping early as soon as a pass rejects
nothing. -/
def sigmaClipAux (sigma : ℚ) : ℕ → List ℚ → List ℚ
  | 0, l => l
  | n + 1, l =>
    let l2 := clipStep sigma l
    if l2 = l then l else sigmaClipAux sigma n l2

/-- Line 119-120 of `ppxf_MC.py`:
`clipped = sigma_clip(..., sigma=sigma, stdfunc=MAD)` followed by
`clipped = clipped.data[~clipped.mask]`: the retained values, in their
original order. -/
def sigmaClip (sigma : ℚ) (l : List ℚ) : List ℚ := sigmaClipAux sigma 5 l

/-- Minimum of a list (`np.min`); used only on nonempty lists. -/
def listMin : List ℚ → ℚ
  | [] => 0
  | x :: xs => xs.foldl min x

/-- Maximum of a list (`np.max`); used only on nonempty lists. -/
def listMax : List ℚ → ℚ
  | [] => 0
  | x :: xs => xs.foldl max x

/-- `np.mean`. -/
def mean (l : List ℚ) : ℚ := l.sum / l.length

/-- The population variance; `np.std` is its square root, taken below
through the abstract `qsqrt`. -/
def variance (l : List ℚ) : ℚ := (l.map (fun x => (x - mean l) ^ 2)).sum / l.length

/-- The histogram range of `np.histogram(data, bins=20)` with no explicit
range: `(min, max)` of the data, widened to `(min - 0.5, max + 0.5)` when
all values coincide. -/
def histFirstLast (l : List ℚ) : ℚ × ℚ :=
  let mn := listMin l
  let mx := listMax l
  if mn = mx then (mn - 1/2, mx + 1/2) else (mn, mx)

/-- The i-th of the 21 equally spaced bin edges of
`np.histogram(data, bins=20)`. -/
def histEdge (l : List ℚ) (i : ℕ) : ℚ :=
  (histFirstLast l).1 + i * ((histFirstLast l).2 - (histFirstLast l).1) / 20

/-- Membership of a value in bin `i` of the 20-bin histogram: the half-open
interval `[edge i, edge (i+1))`, except that the last bin also includes its
right edge (numpy's convention). -/
def inBin (l : List ℚ) (i : ℕ) (x : ℚ) : Bool :=
  if i + 1 = 20 then decide (histEdge l i ≤ x) && decide (x ≤ histEdge l (i + 1))
  else decide (histEdge l i ≤ x) && decide (x < histEdge l (i + 1))

/-- The counts-vector of `np.histogram(data, bins=20, density=True)`
normalized to a density: `count / (len(data) * bin width)`. -/
def histDensity (l : List ℚ) : List ℚ :=
  (List.range 20).map (fun i =>
    ((l.filter (inBin l i)).length : ℚ) / (l.length * (histEdge l (i + 1) - histEdge l i)))

/-- The bin-edge vector `ret[1]` of `np.histogram(data, bins=20)`. -/
def histEdges (l : List ℚ) : List ℚ := (List.range 21).map (histEdge l)

/-- Line 124 of `ppxf_MC.py`:
`bins = [ret[1][i] + 0.5 * (ret[1][i+1] - ret[1][i]) for i in range(len(ret[0]))]`. -/
def binCenters (edges : List ℚ) (k : ℕ) : List ℚ :=
  (List.range k).map (fun i => nthD 0 edges i + (nthD 0 edges (i + 1) - nthD 0 edges i) / 2)

/-- The function `_gaussian_fit` (lines 261-269 of `ppxf_MC.py`):
`a * np.exp((-1) * (x - b) ** 2.0 / (2 * c ** 2))`, with `np.exp` passed in
as the abstract `qexp`. -/
def gaussian_fit (qexp : ℚ → ℚ) (x a b c : ℚ) : ℚ :=
  a * qexp ((-1) * (x - b) ^ 2 / (2 * c ^ 2))

/-- The type of the external nonlinear least-squares engine
`Model(model).fit(data, x=bins, a=a0, b=b0, c=c0)`: from the model
function, the data, the x values and the three initial guesses to the
fitted `(a, b, c)` in `result.best_values`. -/
def CurveFitter : Type :=
  (ℚ → ℚ → ℚ → ℚ → ℚ) → List ℚ → List ℚ → ℚ → ℚ → ℚ → ℚ × ℚ × ℚ

/-- Lines 122-130 and 170 of `ppxf_MC.py` (the branch taken when no
`spec_id` is supplied): histogram the clipped sample with
`np.histogram(clipped, bins=int(20), density=True)`, form the bin centers,
fit `_gaussian_fit` by nonlinear least squares starting from
`a=np.max(ret[0]), b=np.mean(clipped), c=np.std(clipped)`, and return
`(popt[1], popt[2])`.  When the clipped sample is empty, numpy produces an
all-NaN density and NaN `np.mean`/`np.std`, and lmfit's default
`nan_policy='raise'` rejects the non-finite input with a `ValueError`
before fitting; the guard models exactly that failure. -/
def summarizeNoPlot (curveFit : CurveFitter) (qexp qsqrt : ℚ → ℚ)
    (clipped : List ℚ) : Except PyError (ℚ × ℚ) :=
  if clipped.isEmpty then .error .valueError
  else
    let ret0 := histDensity clipped
    let ret1 := histEdges clipped
    let bins := binCenters ret1 ret0.length
    let popt := curveFit (gaussian_fit qexp) ret0 bins (listMax ret0) (mean clipped)
      (qsqrt (variance clipped))
    .ok (popt.2.1, popt.2.2)

/-- The histogram values computed by `plt.hist(clipped, bins=int(20),
density=True)` on line 133.  Modelled from matplotlib's documented
behavior: `plt.hist` returns `(n, bins, patches)` where `n` and `bins` are
exactly the two arrays of `np.histogram` with the same arguments. -/
def pltHistDensity (l : List ℚ) : List ℚ :=
  (List.range 20).map (fun i =>
    ((l.filter (inBin l i)).length : ℚ) / (l.length * (histEdge l (i + 1) - histEdge l i)))

/-- The bin edges returned by `plt.hist` on line 133; see `pltHistDensity`. -/
def pltHistEdges (l : List ℚ) : List ℚ := (List.range 21).map (histEdge l)

/-- Lines 131-170 of `ppxf_MC.py` (the branch taken when a truthy `spec_id`
is supplied): the same histogram, bin centers, Gaussian fit and returned
pair as the other branch, computed from `plt.hist` instead of
`np.histogram`; the remaining statements of the branch (lines 143-168) only
render and save the diagnostic figure `<spec_id>_v_dist.png` and are pure
side effects with no influence on `popt`.  The empty-sample guard is as in
`summarizeNoPlot`. -/
def summarizePlot (curveFit : CurveFitter) (qexp qsqrt : ℚ → ℚ)
    (clipped : List ℚ) : Except PyError (ℚ × ℚ) :=
  if clipped.isEmpty then .error .valueError
  else
    let ret0 := pltHistDensity clipped
    let ret1 := pltHistEdges clipped
    let bins := binCenters ret1 ret0.length
    let popt := curveFit (gaussian_fit qexp) ret0 bins (listMax ret0) (mean clipped)
      (qsqrt (variance clipped))
    .ok (popt.2.1, popt.2.2)

/-- Column 0 of the stacked trial-result matrix,
`np.array(uncert_ppxf)[:, 0]` (line 119). -/
def column0 (E : List (List ℚ)) : List ℚ := E.map (fun row => nthD 0 row 0)

/-- The fan-out of lines 100-117 of `ppxf_MC.py`: `nrand` identical
argument tuples (the noise array `np.ones_like(log_spec_f)` of line 95
among them) mapped over `_ppxf_bootstrap` by `Pool.starmap`, which returns
the trial results in order and re-raises the first failure.  Trial `t`
draws its own randomness `normals t` / `uniforms t`. -/
def runTrials (f : Fitter) (normals : ℕ → ℕ → ℚ) (uniforms : ℕ → ℚ)
    (log_template_f log_spec_f log_spec_err : List ℚ) (velscale : ℚ) (degree : ℤ)
    (gp : List ℕ) (guesses : List ℚ) (moments : ℕ) (vsyst : ℚ)
    (RV_guess_var : ℚ) (nrand : ℕ) : Except PyError (List (List ℚ)) :=
  emapM (fun t =>
    ppxf_bootstrap f log_template_f log_spec_f log_spec_err velscale degree gp
      guesses moments vsyst (List.replicate log_spec_f.length 1) RV_guess_var
      ((List.range gp.length).map (normals t)) (uniforms t))
    (List.range nrand)

/-- The public entry point `ppxf_MC` (lines 17-170 of `ppxf_MC.py`).

Control flow modelled from the source, in order:
1. `noise = np.ones_like(log_spec_f)` (line 95), passed to every trial.
2. `if goodpixels.any() == None:` (line 97).  When `goodpixels` is `None`
   (its documented default) this evaluates `None.any()` and raises
   `AttributeError`.  When `goodpixels` is an array, `goodpixels.any()` is
   a numpy boolean and `== None` is always `False`, so the array is used
   exactly as supplied (line 98 is unreachable) — hence the `some` branch
   below never substitutes `np.arange(len(log_spec_f))`.
3. `with Pool(n_CPU)` (line 116): CPython's `Pool.__init__` raises
   `ValueError` ("Number of processes must be at least 1") when the
   process count is below 1 — including this function's own default
   `n_CPU = -1`, whose documented "use all available cores" meaning is not
   actually implemented: the value is handed to `Pool` unchanged.  A count
   of at least 1 only sizes the pool and cannot influence the collected
   results, so pool size is not otherwise modelled.
4. the parallel trials (lines 100-117, `runTrials`).
5. `np.array(uncert_ppxf)[:, 0]` (line 119) raises `IndexError` when the
   result list is empty (a 1-D empty array has no second axis).
6. sigma clipping (lines 119-120), then the `if not spec_id:` branch
   (line 122): the no-plot branch for `None` or an empty string, the
   plotting branch otherwise. -/
def ppxf_MC (f : Fitter) (curveFit : CurveFitter) (qexp qsqrt : ℚ → ℚ)
    (normals : ℕ → ℕ → ℚ) (uniforms : ℕ → ℚ)
    (log_template_f log_spec_f log_spec_err : List ℚ) (velscale : ℚ)
    (guesses : List ℚ) (nrand : ℕ) (degree : ℤ) (goodpixels : Option (List ℕ))
    (moments : ℕ) (vsyst : ℚ) (sigma : ℚ) (spec_id : Option String)
    (RV_guess_var : ℚ) (n_CPU : ℤ) : Except PyError (ℚ × ℚ) :=
  match goodpixels with
  | none => .error .attributeError
  | some gp =>
    if n_CPU < 1 then .error .valueError
    else do
      let uncert ← runTrials f normals uniforms log_template_f log_spec_f
        log_spec_err velscale degree gp guesses moments vsyst RV_guess_var nrand
      if uncert.isEmpty then .error .indexError
      else
        let clipped := sigmaClip sigma (column0 uncert)
        match spec_id with
        | none => summarizeNoPlot curveFit qexp qsqrt clipped
        | some s =>
          if s.isEmpty then summarizeNoPlot curveFit qexp qsqrt clipped
          else summarizePlot curveFit qexp qsqrt clipped

/-- The Distribution Summarizer as the specification words it, for the
refinement claim C1: iteratively sigma-clip the RV sample at threshold
`sigma` with the median absolute deviation as spread estimator and the
median as center, discard the clipped values, bin the retained values into
a 20-bin equal-width density histogram, take bin centers at left edge plus
half bin-width, fit the Gaussian `a * exp(-(x-b)^2 / (2c^2))` to the
(bin-center, density) pairs by nonlinear least squares started from
`a = max(density), b = mean(retained), c = std(retained)`, and return the
fitted `(b, c)`. -/
def specSummarize (curveFit : CurveFitter) (qexp qsqrt : ℚ → ℚ) (sigma : ℚ)
    (rvs : List ℚ) : ℚ × ℚ :=
  let retained := sigmaClip sigma rvs
  let density := histDensity retained
  let centers := binCenters (histEdges retained) density.length
  let fitted := curveFit (gaussian_fit qexp) density centers (listMax density)
    (mean retained) (qsqrt (variance retained))
  (fitted.2.1, fitted.2.2)

/-! ## Basic reduction lemmas for the embedding -/

theorem eBindOk {α β : Type} (a : α) (g : α → Except PyError β) :
    (Except.ok a >>= g) = g a := rfl

theorem eBindErr {α β : Type} (e : PyError) (g : α → Except PyError β) :
    ((Except.error e : Except PyError α) >>= g) = Except.error e := rfl

theorem emapM_nil {α β : Type} (f : α → Except PyError β) : emapM f [] = .ok [] := rfl

theorem emapM_cons {α β : Type} (f : α → Except PyError β) (a : α) (l : List α) :
    emapM f (a :: l) = (f a >>= fun b => emapM f l >>= fun bs => .ok (b :: bs)) := rfl

theorem emapM_cons_error {α β : Type} {f : α → Except PyError β} {a : α} {e : PyError}
    (l : List α) (h : f a = .error e) : emapM f (a :: l) = .error e := by
  rw [emapM_cons, h, eBindErr]

theorem emapM_congr {α β : Type} {f g : α → Except PyError β} :
    ∀ {l : List α}, (∀ a ∈ l, f a = g a) → emapM f l = emapM g l
  | [], _ => rfl
  | a :: l, h => by
    rw [emapM_cons, emapM_cons, h a (List.mem_cons_self a l),
      emapM_congr (fun b hb => h b (List.mem_cons_of_mem a hb))]

theorem emapM_const_ok {α β : Type} {f : α → Except PyError β} {r : β} :
    ∀ {l : List α}, (∀ a ∈ l, f a = .ok r) → emapM f l = .ok (List.replicate l.length r)
  | [], _ => rfl
  | a :: l, h => by
    rw [emapM_cons, h a (List.mem_cons_self a l), eBindOk,
      emapM_const_ok (fun b hb => h b (List.mem_cons_of_mem a hb)), eBindOk,
      List.length_cons, List.replicate_succ]

theorem nthD_cons_zero {α : Type} (d x : α) (xs : List α) : nthD d (x :: xs) 0 = x := rfl

theorem nthD_cons_succ {α : Type} (d x : α) (xs : List α) (n : ℕ) :
    nthD d (x :: xs) (n + 1) = nthD d xs n := rfl

theorem getElem_eq_nthD {α : Type} (d : α) :
    ∀ (l : List α) (i : ℕ) (h : i < l.length), l[i] = nthD d l i
  | x :: _, 0, _ => rfl
  | _ :: xs, i + 1, h =>
    (List.getElem_cons_succ _ _ _ _).trans (getElem_eq_nthD d xs i (by simpa using h))

theorem npGet_ok {l : List ℚ} {i : ℕ} (h : i < l.length) :
    npGet l i = .ok (nthD 0 l i) := by
  rw [npGet, dif_pos h, getElem_eq_nthD]

theorem npGet_error {l : List ℚ} {i : ℕ} (h : ¬ i < l.length) :
    npGet l i = .error .indexError := by
  rw [npGet, dif_neg h]

theorem nthD_set_self {d v : ℚ} :
    ∀ {a : List ℚ} {i : ℕ}, i < a.length → nthD d (a.set i v) i = v
  | _ :: _, 0, _ => rfl
  | x :: xs, i + 1, h => by
    rw [List.set_cons_succ, nthD_cons_succ]
    exact nthD_set_self (by simpa using h)

theorem nthD_set_ne {d v : ℚ} :
    ∀ {a : List ℚ} {i j : ℕ}, i ≠ j → nthD d (a.set i v) j = nthD d a j
  | [], _, _, _ => rfl
  | x :: xs, 0, 0, h => absurd rfl h
  | x :: xs, 0, j + 1, _ => rfl
  | x :: xs, i + 1, 0, _ => rfl
  | x :: xs, i + 1, j + 1, h => by
    rw [List.set_cons_succ, nthD_cons_succ, nthD_cons_succ]
    exact nthD_set_ne (fun hij => h (by rw [hij]))

theorem scatter_nil (vs a : List ℚ) : scatter [] vs a = a := rfl

theorem scatter_cons (i : ℕ) (is : List ℕ) (v : ℚ) (vs a : List ℚ) :
    scatter (i :: is) (v :: vs) a = scatter is vs (a.set i v) := rfl

theorem scatter_length :
    ∀ (gp : List ℕ) (vs a : List ℚ), (scatter gp vs a).length = a.length
  | [], _, _ => rfl
  | _ :: _, [], _ => rfl
  | i :: is, v :: vs, a => by
    rw [scatter_cons, scatter_length is vs, List.length_set]

theorem scatter_nthD_notMem :
    ∀ (gp : List ℕ) (vs a : List ℚ) (i : ℕ), i ∉ gp →
      nthD 0 (scatter gp vs a) i = nthD 0 a i
  | [], _, _, _, _ => rfl
  | _ :: _, [], _, _, _ => rfl
  | j :: js, v :: vs, a, i, h => by
    rw [scatter_cons, scatter_nthD_notMem js vs _ i (fun hm => h (List.mem_cons_of_mem j hm)),
      nthD_set_ne (fun hj => h (by rw [← hj]; exact List.mem_cons_self j js))]

theorem scatter_nthD_at :
    ∀ (gp : List ℕ) (vs a : List ℚ), gp.Nodup → vs.length = gp.length →
      (∀ j ∈ gp, j < a.length) →
      ∀ (k : ℕ) (hk : k < gp.length), nthD 0 (scatter gp vs a) gp[k] = nthD 0 vs k
  | [], _, _, _, _, _, k, hk => absurd hk (by simp)
  | i :: is, [], a, hnd, hlen, hin, k, hk => by
    rw [List.length_nil, List.length_cons] at hlen
    exact absurd hlen.symm (Nat.succ_ne_zero _)
  | i :: is, v :: vs, a, hnd, hlen, hin, 0, hk => by
    rw [scatter_cons, List.getElem_cons_zero,
      scatter_nthD_notMem is vs _ i (List.Nodup.not_mem hnd),
      nthD_set_self (hin i (List.mem_cons_self i is)), nthD_cons_zero]
  | i :: is, v :: vs, a, hnd, hlen, hin, k + 1, hk => by
    rw [scatter_cons, List.getElem_cons_succ, nthD_cons_succ]
    exact scatter_nthD_at is vs (a.set i v) (List.Nodup.of_cons hnd)
      (by simpa using hlen)
      (fun j hj => by rw [List.length_set]; exact hin j (List.mem_cons_of_mem i hj))
      k (by simpa using hk)

theorem perturbRhs_ok (spec err : List ℚ) :
    ∀ (ps : List (ℕ × ℚ)), (∀ p ∈ ps, p.1 < spec.length ∧ p.1 < err.length) →
      perturbRhs spec err ps =
        .ok (ps.map (fun p => nthD 0 spec p.1 + p.2 * nthD 0 err p.1))
  | [], _ => rfl
  | p :: ps, h => by
    have h1 := (h p (List.mem_cons_self p ps)).1
    have h2 := (h p (List.mem_cons_self p ps)).2
    have ih := perturbRhs_ok spec err ps (fun q hq => h q (List.mem_cons_of_mem p hq))
    rw [perturbRhs] at ih ⊢
    rw [emapM_cons, npGet_ok h1, eBindOk, npGet_ok h2, eBindOk, eBindOk, ih, eBindOk,
      List.map_cons]

theorem perturb_ok (spec err : List ℚ) (gp : List ℕ) (draws : List ℚ)
    (hin : ∀ i ∈ gp, i < spec.length ∧ i < err.length) :
    perturb spec err gp draws =
      .ok (scatter gp
        ((gp.zip draws).map (fun p => nthD 0 spec p.1 + p.2 * nthD 0 err p.1)) spec) := by
  rw [perturb, perturbRhs_ok spec err (gp.zip draws)
    (fun p hp => hin p.1 (List.of_mem_zip hp).1), eBindOk]

theorem nthD_map_zip (F : ℕ × ℚ → ℚ) :
    ∀ (gp : List ℕ) (draws : List ℚ) (k : ℕ), k < gp.length → k < draws.length →
      nthD 0 ((gp.zip draws).map F) k = F (nthD 0 gp k, nthD 0 draws k)
  | [], _, k, hk, _ => absurd hk (by simp)
  | _ :: _, [], k, _, hk => absurd hk (by simp)
  | i :: is, d :: ds, 0, _, _ => rfl
  | i :: is, d :: ds, k + 1, hk, hd => by
    rw [List.zip_cons_cons, List.map_cons, nthD_cons_succ, nthD_cons_succ, nthD_cons_succ]
    exact nthD_map_zip F is ds k (by simpa using hk) (by simpa using hd)

/-! ## Claim theorems -/

/-- C2: every bootstrap trial operates on a (pure) copy of the observed
spectrum — `perturb` returns a new list and, the embedding being pure, the
caller's `spec` is unchanged by construction, mirroring the explicit
`log_spec_f.copy()` of line 228 — and for every position `k` of the
good-pixel mask the new value at index `gp[k]` is
`spec[gp[k]] + draws[k] * err[gp[k]]` (its own independent standard-normal
draw times that pixel's error), while every index outside the mask keeps
its original value. -/
theorem bootstrap_perturbation_spec (spec err : List ℚ) (gp : List ℕ) (draws : List ℚ)
    (hd : draws.length = gp.length) (hnd : gp.Nodup)
    (hin : ∀ i ∈ gp, i < spec.length ∧ i < err.length) :
    ∃ ns, perturb spec err gp draws = Except.ok ns ∧
      ns.length = spec.length ∧
      (∀ k, k < gp.length →
        nthD 0 ns (nthD 0 gp k) =
          nthD 0 spec (nthD 0 gp k) + nthD 0 draws k * nthD 0 err (nthD 0 gp k)) ∧
      (∀ i, i ∉ gp → nthD 0 ns i = nthD 0 spec i) := by
  refine ⟨_, perturb_ok spec err gp draws hin, scatter_length _ _ _, ?_, ?_⟩
  · intro k hk
    have hzlen : ((gp.zip draws).map
        (fun p => nthD 0 spec p.1 + p.2 * nthD 0 err p.1)).length = gp.length := by
      rw [List.length_map, List.length_zip, hd, Nat.min_self]
    have hat := scatter_nthD_at gp
      ((gp.zip draws).map (fun p => nthD 0 spec p.1 + p.2 * nthD 0 err p.1)) spec
      hnd hzlen (fun j hj => (hin j hj).1) k hk
    rw [getElem_eq_nthD] at hat
    rw [hat, nthD_map_zip _ gp draws k hk (hd ▸ hk)]
  · intro i hi
    exact scatter_nthD_notMem gp _ spec i hi

/-- Witness for C2 at a concrete input: spectrum `[1, 2, 3]`, errors
`[10, 20, 30]`, mask `[0, 2]`, draws `[1, -1]`. -/
theorem bootstrap_perturbation_spec_witness :
    ∃ ns, perturb [1, 2, 3] [10, 20, 30] [0, 2] [1, -1] = Except.ok ns ∧
      ns.length = ([1, 2, 3] : List ℚ).length ∧
      (∀ k, k < ([0, 2] : List ℕ).length →
        nthD 0 ns (nthD 0 [0, 2] k) =
          nthD 0 [1, 2, 3] (nthD 0 [0, 2] k) +
            nthD 0 [1, -1] k * nthD 0 [10, 20, 30] (nthD 0 [0, 2] k)) ∧
      (∀ i, i ∉ ([0, 2] : List ℕ) → nthD 0 ns i = nthD 0 ([1, 2, 3] : List ℚ) i) :=
  bootstrap_perturbation_spec [1, 2, 3] [10, 20, 30] [0, 2] [1, -1]
    (by decide) (by decide) (by decide)

unseal Rat.add Rat.mul Rat.inv Rat.sub in
/-- C3 counterexample: for the four-component guess tuple `[1, 2, 3, 4]`
(as used with `moments = 4`) and a zero RV perturbation, the guess vector
actually handed to the external fitter is `[1, 2]` — the components beyond
the second are dropped by the `zip` on line 234, not passed through
unchanged as the claim states. -/
theorem guess_truncation_cex :
    (bootstrapCall [] [] [] 0 [] 0 [1, 2, 3, 4] 4 0 0).start = [1, 2] ∧
    (bootstrapCall [] [] [] 0 [] 0 [1, 2, 3, 4] 4 0 0).start ≠ [1, 2, 3, 4] := by
  decide

/-- C3 (amended): the RV perturbation `u * RV_guess_var` (which is `0`
whenever `RV_guess_var = 0`) is added to the RV component of the guess
tuple and the second (dispersion) component is passed through unchanged,
but the guess list handed to the fitter is truncated to its first two
components: components beyond the second are dropped. -/
theorem guess_perturbation_spec (template spec2 noise : List ℚ) (velscale : ℚ)
    (gp : List ℕ) (degree : ℤ) (guesses : List ℚ) (moments : ℕ) (vsyst : ℚ)
    (u RV_guess_var : ℚ) :
    (RV_guess_var = 0 → u * RV_guess_var = 0) ∧
    (bootstrapCall template spec2 noise velscale gp degree guesses moments vsyst
        (u * RV_guess_var)).start =
      (match guesses with
       | [] => []
       | [g0] => [g0 + u * RV_guess_var]
       | g0 :: g1 :: _ => [g0 + u * RV_guess_var, g1]) := by
  refine ⟨fun h => by rw [h, mul_zero], ?_⟩
  show var_guesses guesses (u * RV_guess_var) = _
  cases guesses with
  | nil => rfl
  | cons g0 t =>
    cases t with
    | nil => rfl
    | cons g1 r => simp [var_guesses]

/-- Witness for the amended C3 at the concrete guess tuple `[1, 2, 3]`
with `u = 1/2` and `RV_guess_var = 0`. -/
theorem guess_perturbation_spec_witness :
    ((0 : ℚ) = 0 → (1/2 : ℚ) * 0 = 0) ∧
    (bootstrapCall [] [] [] 0 [] 0 [1, 2, 3] 4 0 ((1/2 : ℚ) * 0)).start =
      [1 + (1/2 : ℚ) * 0, 2] :=
  guess_perturbation_spec [] [] [] 0 [] 0 [1, 2, 3] 4 0 (1/2) 0

/-- C6: calling `ppxf_MC` with `goodpixels=None` — its documented default —
does not substitute the full index range `np.arange(len(log_spec_f))`;
line 97 evaluates `None.any()` and the call dies with an `AttributeError`
for every choice of the remaining inputs. -/
theorem goodpixels_none_raises (f : Fitter) (curveFit : CurveFitter)
    (qexp qsqrt : ℚ → ℚ) (normals : ℕ → ℕ → ℚ) (uniforms : ℕ → ℚ)
    (log_template_f log_spec_f log_spec_err : List ℚ) (velscale : ℚ)
    (guesses : List ℚ) (nrand : ℕ) (degree : ℤ) (moments : ℕ) (vsyst sigma : ℚ)
    (spec_id : Option String) (RV_guess_var : ℚ) (n_CPU : ℤ) :
    ppxf_MC f curveFit qexp qsqrt normals uniforms log_template_f log_spec_f
      log_spec_err velscale guesses nrand degree none moments vsyst sigma spec_id
      RV_guess_var n_CPU = .error .attributeError := rfl

theorem ppxf_MC_some (f : Fitter) (curveFit : CurveFitter) (qexp qsqrt : ℚ → ℚ)
    (normals : ℕ → ℕ → ℚ) (uniforms : ℕ → ℚ)
    (log_template_f log_spec_f log_spec_err : List ℚ) (velscale : ℚ)
    (guesses : List ℚ) (nrand : ℕ) (degree : ℤ) (gp : List ℕ) (moments : ℕ)
    (vsyst sigma : ℚ) (spec_id : Option String) (RV_guess_var : ℚ) (n_CPU : ℤ) :
    ppxf_MC f curveFit qexp qsqrt normals uniforms log_template_f log_spec_f
      log_spec_err velscale guesses nrand degree (some gp) moments vsyst sigma
      spec_id RV_guess_var n_CPU =
      (if n_CPU < 1 then .error .valueError
       else
        (runTrials f normals uniforms log_template_f log_spec_f log_spec_err velscale
            degree gp guesses moments vsyst RV_guess_var nrand >>= fun uncert =>
          if uncert.isEmpty then .error .indexError
          else
            match spec_id with
            | none => summarizeNoPlot curveFit qexp qsqrt (sigmaClip sigma (column0 uncert))
            | some s =>
              if s.isEmpty then summarizeNoPlot curveFit qexp qsqrt (sigmaClip sigma (column0 uncert))
              else summarizePlot curveFit qexp qsqrt (sigmaClip sigma (column0 uncert)))) := rfl

theorem ppxf_MC_some_valid (f : Fitter) (curveFit : CurveFitter) (qexp qsqrt : ℚ → ℚ)
    (normals : ℕ → ℕ → ℚ) (uniforms : ℕ → ℚ)
    (log_template_f log_spec_f log_spec_err : List ℚ) (velscale : ℚ)
    (guesses : List ℚ) (nrand : ℕ) (degree : ℤ) (gp : List ℕ) (moments : ℕ)
    (vsyst sigma : ℚ) (spec_id : Option String) (RV_guess_var : ℚ) (n_CPU : ℤ)
    (hn : ¬ n_CPU < 1) :
    ppxf_MC f curveFit qexp qsqrt normals uniforms log_template_f log_spec_f
      log_spec_err velscale guesses nrand degree (some gp) moments vsyst sigma
      spec_id RV_guess_var n_CPU =
      (runTrials f normals uniforms log_template_f log_spec_f log_spec_err velscale
          degree gp guesses moments vsyst RV_guess_var nrand >>= fun uncert =>
        if uncert.isEmpty then .error .indexError
        else
          match spec_id with
          | none => summarizeNoPlot curveFit qexp qsqrt (sigmaClip sigma (column0 uncert))
          | some s =>
            if s.isEmpty then summarizeNoPlot curveFit qexp qsqrt (sigmaClip sigma (column0 uncert))
            else summarizePlot curveFit qexp qsqrt (sigmaClip sigma (column0 uncert))) := by
  rw [ppxf_MC_some, if_neg hn]

/-- C4: when the external fit fails on a trial, `Pool.starmap` re-raises the
failure, so the whole batch fails: with a fitter that always raises `e` and
a valid worker count (below 1 the pool constructor itself fails before any
fit is attempted), `ppxf_MC` propagates exactly that fit failure to its
caller and never returns a numeric `(rv_mean, rv_uncertainty)` pair built
from partial or defaulted trial results.  (The index-validity hypothesis
keeps the first trial's spectrum perturbation from failing before the
fitter is even reached.) -/
theorem fit_failure_aborts_batch (f : Fitter) (curveFit : CurveFitter)
    (qexp qsqrt : ℚ → ℚ) (normals : ℕ → ℕ → ℚ) (uniforms : ℕ → ℚ)
    (log_template_f log_spec_f log_spec_err : List ℚ) (velscale : ℚ)
    (guesses : List ℚ) (n : ℕ) (degree : ℤ) (gp : List ℕ) (moments : ℕ)
    (vsyst sigma : ℚ) (spec_id : Option String) (RV_guess_var : ℚ) (n_CPU : ℤ)
    (e : PyError) (hf : ∀ c, f c = .error e)
    (hin : ∀ i ∈ gp, i < log_spec_f.length ∧ i < log_spec_err.length)
    (hn : 1 ≤ n_CPU) :
    ppxf_MC f curveFit qexp qsqrt normals uniforms log_template_f log_spec_f
      log_spec_err velscale guesses (n + 1) degree (some gp) moments vsyst sigma
      spec_id RV_guess_var n_CPU = .error e := by
  have htrial : ppxf_bootstrap f log_template_f log_spec_f log_spec_err velscale
      degree gp guesses moments vsyst (List.replicate log_spec_f.length 1)
      RV_guess_var ((List.range gp.length).map (normals 0)) (uniforms 0) =
      .error e := by
    rw [ppxf_bootstrap, perturb_ok log_spec_f log_spec_err gp _ hin, eBindOk, hf, eBindErr]
  rw [ppxf_MC_some, if_neg (by omega : ¬ n_CPU < 1)]
  simp only [runTrials, List.range_succ_eq_map, emapM_cons, htrial, eBindErr]

/-- A fitting adapter that always fails, as in the spec's batch-abort
scenario. -/
def alwaysFailFitter : Fitter := fun _ => .error .fitError

/-- Witness for C4: the always-failing adapter on a concrete two-trial
batch with two workers; the batch aborts with the adapter's own failure. -/
theorem fit_failure_aborts_batch_witness :
    (∀ c, alwaysFailFitter c = Except.error PyError.fitError) ∧
    ppxf_MC alwaysFailFitter (fun _ _ _ a b c => (a, b, c)) id id (fun _ _ => 0)
      (fun _ => 0) [1] [1] [1] 0 [0, 50] 2 4 (some [0]) 4 0 5 none 0 2 =
      .error .fitError :=
  ⟨fun _ => rfl,
    fit_failure_aborts_batch alwaysFailFitter (fun _ _ _ a b c => (a, b, c)) id id
      (fun _ _ => 0) (fun _ => 0) [1] [1] [1] 0 [0, 50] 1 4 [0] 4 0 5 none 0 2
      .fitError (fun _ => rfl) (by decide) (by decide)⟩

theorem perturbRhs_error (spec err : List ℚ) :
    ∀ (ps : List (ℕ × ℚ)), (∀ p ∈ ps, p.1 < spec.length) →
      (∃ p ∈ ps, ¬ p.1 < err.length) → perturbRhs spec err ps = .error .indexError
  | [], _, h => absurd h (by simp)
  | p :: ps, hs, hex => by
    by_cases hp : p.1 < err.length
    · have hex2 : ∃ q ∈ ps, ¬ q.1 < err.length := by
        obtain ⟨q, hq, hqe⟩ := hex
        rcases List.mem_cons.mp hq with h1 | h2
        · exact absurd hp (h1 ▸ hqe)
        · exact ⟨q, h2, hqe⟩
      have ih := perturbRhs_error spec err ps
        (fun q hq => hs q (List.mem_cons_of_mem p hq)) hex2
      rw [perturbRhs] at ih ⊢
      rw [emapM_cons, npGet_ok (hs p (List.mem_cons_self p ps)), eBindOk, npGet_ok hp,
        eBindOk, eBindOk, ih, eBindErr]
    · rw [perturbRhs, emapM_cons, npGet_ok (hs p (List.mem_cons_self p ps)), eBindOk,
        npGet_error hp, eBindErr, eBindErr]

theorem perturb_nil (spec err draws : List ℚ) : perturb spec err [] draws = .ok spec := rfl

theorem mismatch_first_trial_aborts (f : Fitter) (curveFit : CurveFitter)
    (qexp qsqrt : ℚ → ℚ) (normals : ℕ → ℕ → ℚ) (uniforms : ℕ → ℚ)
    (log_template_f log_spec_f log_spec_err : List ℚ) (velscale : ℚ)
    (guesses : List ℚ) (n : ℕ) (degree : ℤ) (moments : ℕ) (vsyst sigma : ℚ)
    (spec_id : Option String) (RV_guess_var : ℚ) (n_CPU : ℤ)
    (hlen : log_spec_err.length < log_spec_f.length) (hn : 1 ≤ n_CPU) :
    ppxf_MC f curveFit qexp qsqrt normals uniforms log_template_f log_spec_f
      log_spec_err velscale guesses (n + 1) degree (some (List.range log_spec_f.length))
      moments vsyst sigma spec_id RV_guess_var n_CPU = .error .indexError := by
  set gp := List.range log_spec_f.length with hgp
  set draws := (List.range gp.length).map (normals 0) with hdraws
  have hdlen : draws.length = gp.length := by rw [hdraws, List.length_map, List.length_range]
  have hglen : gp.length = log_spec_f.length := by rw [hgp, List.length_range]
  have hzlen : (gp.zip draws).length = gp.length := by
    rw [List.length_zip, hdlen, Nat.min_self]
  have hk : log_spec_err.length < (gp.zip draws).length := by
    rw [hzlen, hglen]; exact hlen
  have hfst : (gp.zip draws)[log_spec_err.length].1 = log_spec_err.length := by
    simp only [List.getElem_zip, hgp, List.getElem_range]
  have hper : perturb log_spec_f log_spec_err gp draws = .error .indexError := by
    rw [perturb, perturbRhs_error log_spec_f log_spec_err (gp.zip draws)
      (fun p hp => by
        have := (List.of_mem_zip hp).1
        rw [hgp] at this
        exact List.mem_range.mp this)
      ⟨(gp.zip draws)[log_spec_err.length], List.getElem_mem hk,
        by rw [hfst]; exact Nat.lt_irrefl _⟩, eBindErr]
  have htrial : ppxf_bootstrap f log_template_f log_spec_f log_spec_err velscale
      degree gp guesses moments vsyst (List.replicate log_spec_f.length 1)
      RV_guess_var draws (uniforms 0) = .error .indexError := by
    rw [ppxf_bootstrap, hper, eBindErr]
  rw [ppxf_MC_some, if_neg (by omega : ¬ n_CPU < 1)]
  simp only [runTrials, List.range_succ_eq_map, emapM_cons, ← hdraws, htrial, eBindErr]

theorem empty_mask_trials_run (f : Fitter) (normals : ℕ → ℕ → ℚ) (uniforms : ℕ → ℚ)
    (log_template_f log_spec_f log_spec_err : List ℚ) (velscale : ℚ) (degree : ℤ)
    (guesses : List ℚ) (moments : ℕ) (vsyst : ℚ) (RV_guess_var : ℚ) (n : ℕ)
    (sol : List ℚ) (hf : ∀ c, f c = .ok sol) (hm : ¬ moments ≤ 2)
    (hs : 4 ≤ sol.length) :
    runTrials f normals uniforms log_template_f log_spec_f log_spec_err velscale
      degree [] guesses moments vsyst RV_guess_var n =
      .ok (List.replicate n [nthD 0 sol 0, nthD 0 sol 1, nthD 0 sol 2, nthD 0 sol 3]) := by
  have htrial : ∀ t : ℕ, ppxf_bootstrap f log_template_f log_spec_f log_spec_err
      velscale degree [] guesses moments vsyst (List.replicate log_spec_f.length 1)
      RV_guess_var ((List.range ([] : List ℕ).length).map (normals t)) (uniforms t) =
      .ok [nthD 0 sol 0, nthD 0 sol 1, nthD 0 sol 2, nthD 0 sol 3] := by
    intro t
    rw [ppxf_bootstrap, perturb_nil, eBindOk, hf, eBindOk, postSol, if_neg hm,
      npGet_ok (by omega), eBindOk, npGet_ok (by omega), eBindOk,
      npGet_ok (by omega), eBindOk, npGet_ok (by omega), eBindOk]
  rw [runTrials, emapM_const_ok (fun t _ => htrial t), List.length_range]

unseal Rat.add Rat.mul Rat.inv Rat.sub in
/-- C7 counterexample: with an empty good-pixel mask, a valid worker count
and a fitter that returns normally, no `InputShapeError` — indeed no
failure at all — is raised before or after dispatch: `ppxf_MC` runs the
trial and returns a numeric pair. -/
theorem empty_mask_accepted_cex :
    ppxf_MC (fun _ => .ok [7, 3, 0, 0]) (fun _ _ _ a b c => (a, b, c)) id id
      (fun _ _ => 0) (fun _ => 0) [1] [1] [1] 0 [0, 50] 1 4 (some []) 4 0 5 none 0
      1 = .ok (7, 0) := by
  decide

/-- C7 (amended): no input-shape validation happens before trials are
dispatched.  First conjunct: for an error array shorter than the spectrum
(with the full-range mask the claim's scenario presumes) and a valid worker
count of at least 1 (below that, `Pool(n_CPU)` itself fails first — see
`ppxf_MC`), `ppxf_MC` does not fail before dispatch with a shape error; the
failure is the `IndexError` raised inside the first trial's perturbation,
whatever the fitter does.  Second conjunct: an empty good-pixel mask is not
rejected — every one of the `n` trials is dispatched and runs to
completion. -/
theorem no_shape_validation :
    (∀ (f : Fitter) (curveFit : CurveFitter) (qexp qsqrt : ℚ → ℚ)
        (normals : ℕ → ℕ → ℚ) (uniforms : ℕ → ℚ)
        (log_template_f log_spec_f log_spec_err : List ℚ) (velscale : ℚ)
        (guesses : List ℚ) (n : ℕ) (degree : ℤ) (moments : ℕ) (vsyst sigma : ℚ)
        (spec_id : Option String) (RV_guess_var : ℚ) (n_CPU : ℤ),
      log_spec_err.length < log_spec_f.length → 1 ≤ n_CPU →
      ppxf_MC f curveFit qexp qsqrt normals uniforms log_template_f log_spec_f
        log_spec_err velscale guesses (n + 1) degree
        (some (List.range log_spec_f.length)) moments vsyst sigma spec_id
        RV_guess_var n_CPU = .error .indexError) ∧
    (∀ (f : Fitter) (normals : ℕ → ℕ → ℚ) (uniforms : ℕ → ℚ)
        (log_template_f log_spec_f log_spec_err : List ℚ) (velscale : ℚ)
        (degree : ℤ) (guesses : List ℚ) (moments : ℕ) (vsyst : ℚ)
        (RV_guess_var : ℚ) (n : ℕ) (sol : List ℚ),
      (∀ c, f c = .ok sol) → ¬ moments ≤ 2 → 4 ≤ sol.length →
      runTrials f normals uniforms log_template_f log_spec_f log_spec_err velscale
        degree [] guesses moments vsyst RV_guess_var n =
        .ok (List.replicate n
          [nthD 0 sol 0, nthD 0 sol 1, nthD 0 sol 2, nthD 0 sol 3])) :=
  ⟨fun f curveFit qexp qsqrt normals uniforms t s e velscale guesses n degree
      moments vsyst sigma spec_id RVvar nCPU hlen hn =>
    mismatch_first_trial_aborts f curveFit qexp qsqrt normals uniforms t s e
      velscale guesses n degree moments vsyst sigma spec_id RVvar nCPU hlen hn,
   fun f normals uniforms t s e velscale degree guesses moments vsyst RVvar n sol
      hf hm hs =>
    empty_mask_trials_run f normals uniforms t s e velscale degree guesses moments
      vsyst RVvar n sol hf hm hs⟩

/-- Witness for the amended C7: a spectrum of length 2 with an error array
of length 1 and one worker aborts with the in-trial `IndexError`, and an
empty mask lets a two-trial batch run to completion. -/
theorem no_shape_validation_witness :
    ppxf_MC (fun _ => .ok [9, 9, 9, 9]) (fun _ _ _ a b c => (a, b, c)) id id
      (fun _ _ => 0) (fun _ => 0) [1, 1] [1, 2] [1] 0 [0, 50] 1 4
      (some (List.range 2)) 4 0 5 none 0 1 = .error .indexError ∧
    runTrials (fun _ => .ok [9, 8, 7, 6]) (fun _ _ => 0) (fun _ => 0) [1] [1] [1] 0
      4 [] [0, 50] 4 0 0 2 = .ok (List.replicate 2 [9, 8, 7, 6]) :=
  ⟨no_shape_validation.1 (fun _ => .ok [9, 9, 9, 9]) (fun _ _ _ a b c => (a, b, c))
      id id (fun _ _ => 0) (fun _ => 0) [1, 1] [1, 2] [1] 0 [0, 50] 0 4 4 0 5 none 0
      1 (by decide) (by decide),
   no_shape_validation.2 (fun _ => .ok [9, 8, 7, 6]) (fun _ _ => 0) (fun _ => 0)
      [1] [1] [1] 0 4 [0, 50] 4 0 0 2 [9, 8, 7, 6] (fun _ => rfl) (by decide)
      (by decide)⟩

unseal Rat.add Rat.mul Rat.inv Rat.sub in
/-- C8 counterexample: a two-trial ensemble whose RV column is `[0, 1]`,
clipped at `sigma = 1/10`, loses every sample, and `ppxf_MC` then fails
with the generic `ValueError` that the fitting library raises for the
NaN density/mean/std of an empty sample — not with a distinguishable
`EmptyEnsembleError`, which exists nowhere in the code. -/
theorem all_clipped_generic_failure_cex :
    sigmaClip (1/10) [0, 1] = [] ∧
    ppxf_MC (fun c => .ok [nthD 0 c.galaxy 0, 0, 0, 0]) (fun _ _ _ a b c => (a, b, c))
      id id (fun t _ => (t : ℚ)) (fun _ => 0) [0] [0] [1] 0 [0, 50] 2 4 (some [0]) 4
      0 (1/10) none 0 1 = .error .valueError := by
  constructor
  · decide
  · decide

/-- C8 (amended): when the iterative sigma-clipping discards every trial
result, the estimator does fail rather than return a numeric pair, but the
failure is the generic `ValueError` arising in the Gaussian-fit step (lmfit
rejecting the NaN density and NaN initial guesses that numpy produces for
an empty sample, under its default `nan_policy='raise'`), the same error
any other non-finite fit input would produce — not a distinguishable
`EmptyEnsembleError`. -/
theorem all_clipped_reports_value_error (f : Fitter) (curveFit : CurveFitter)
    (qexp qsqrt : ℚ → ℚ) (normals : ℕ → ℕ → ℚ) (uniforms : ℕ → ℚ)
    (log_template_f log_spec_f log_spec_err : List ℚ) (velscale : ℚ)
    (guesses : List ℚ) (nrand : ℕ) (degree : ℤ) (gp : List ℕ) (moments : ℕ)
    (vsyst sigma : ℚ) (spec_id : Option String) (RV_guess_var : ℚ) (n_CPU : ℤ)
    (E : List (List ℚ))
    (hE : runTrials f normals uniforms log_template_f log_spec_f log_spec_err
      velscale degree gp guesses moments vsyst RV_guess_var nrand = .ok E)
    (hne : E ≠ [])
    (hclip : sigmaClip sigma (column0 E) = []) :
    ppxf_MC f curveFit qexp qsqrt normals uniforms log_template_f log_spec_f
      log_spec_err velscale guesses nrand degree (some gp) moments vsyst sigma
      spec_id RV_guess_var n_CPU = .error .valueError := by
  have hie : E.isEmpty = false := by
    cases E with
    | nil => exact absurd rfl hne
    | cons a l => rfl
  by_cases hn : n_CPU < 1
  · rw [ppxf_MC_some, if_pos hn]
  · rw [ppxf_MC_some, if_neg hn, hE, eBindOk]
    simp only [hie, Bool.false_eq_true, if_false, hclip]
    cases spec_id with
    | none => rfl
    | some s =>
      cases hs : s.isEmpty
      · simp only [hs, Bool.false_eq_true, if_false]
        rfl
      · simp only [hs, if_true]
        rfl

unseal Rat.add Rat.mul Rat.inv Rat.sub in
/-- Witness for the amended C8 at the concrete two-trial batch of the
counterexample, here with a (truthy) spectrum identifier so the plotting
branch is exercised too. -/
theorem all_clipped_reports_value_error_witness :
    runTrials (fun c => .ok [nthD 0 c.galaxy 0, 0, 0, 0]) (fun t _ => (t : ℚ))
      (fun _ => 0) [0] [0] [1] 0 4 [0] [0, 50] 4 0 0 2 =
      .ok [[0, 0, 0, 0], [1, 0, 0, 0]] ∧
    sigmaClip (1/10) (column0 [[0, 0, 0, 0], [1, 0, 0, 0]]) = [] ∧
    ppxf_MC (fun c => .ok [nthD 0 c.galaxy 0, 0, 0, 0]) (fun _ _ _ a b c => (a, b, c))
      id id (fun t _ => (t : ℚ)) (fun _ => 0) [0] [0] [1] 0 [0, 50] 2 4 (some [0]) 4
      0 (1/10) (some "sp1") 0 1 = .error .valueError :=
  ⟨by decide, by decide,
    all_clipped_reports_value_error (fun c => .ok [nthD 0 c.galaxy 0, 0, 0, 0])
      (fun _ _ _ a b c => (a, b, c)) id id (fun t _ => (t : ℚ)) (fun _ => 0) [0] [0]
      [1] 0 [0, 50] 2 4 [0] 4 0 (1/10) (some "sp1") 0 1
      [[0, 0, 0, 0], [1, 0, 0, 0]] (by decide) (by decide) (by decide)⟩

/-- C1: given a valid worker count (at least 1; below that the pool
constructor fails before any trial — see `ppxf_MC`), for every collected
ensemble `E` whose clipped RV column is nonempty, `ppxf_MC` returns exactly
the pair computed by the specification-side Distribution Summarizer
`specSummarize` on column 0 of `E`: iterative sigma-clipping at threshold
`sigma` with MAD spread and median center, discarding clipped values, a
20-bin equal-width density histogram with centers at left edge plus half
bin-width, a nonlinear least-squares fit of the Gaussian model started from
`a = max(density), b = mean(retained), c = std(retained)`, returning the
fitted `(b, c)`. -/
theorem summarizer_refines_spec (f : Fitter) (curveFit : CurveFitter)
    (qexp qsqrt : ℚ → ℚ) (normals : ℕ → ℕ → ℚ) (uniforms : ℕ → ℚ)
    (log_template_f log_spec_f log_spec_err : List ℚ) (velscale : ℚ)
    (guesses : List ℚ) (nrand : ℕ) (degree : ℤ) (gp : List ℕ) (moments : ℕ)
    (vsyst sigma : ℚ) (RV_guess_var : ℚ) (n_CPU : ℤ) (E : List (List ℚ))
    (hE : runTrials f normals uniforms log_template_f log_spec_f log_spec_err
      velscale degree gp guesses moments vsyst RV_guess_var nrand = .ok E)
    (hne : sigmaClip sigma (column0 E) ≠ []) (hn : 1 ≤ n_CPU) :
    ppxf_MC f curveFit qexp qsqrt normals uniforms log_template_f log_spec_f
      log_spec_err velscale guesses nrand degree (some gp) moments vsyst sigma none
      RV_guess_var n_CPU =
      .ok (specSummarize curveFit qexp qsqrt sigma (column0 E)) := by
  have hie : E.isEmpty = false := by
    cases E with
    | nil => exact absurd rfl hne
    | cons a l => rfl
  have hcne : (sigmaClip sigma (column0 E)).isEmpty = false := by
    cases hc : sigmaClip sigma (column0 E) with
    | nil => exact absurd hc hne
    | cons a l => rfl
  rw [ppxf_MC_some, if_neg (by omega : ¬ n_CPU < 1), hE, eBindOk]
  simp only [hie, Bool.false_eq_true, if_false]
  simp only [summarizeNoPlot, hcne, Bool.false_eq_true, if_false, specSummarize]

unseal Rat.add Rat.mul Rat.inv Rat.sub in
/-- Witness for C1: a two-trial batch whose trials all return
`[5, 2, 0, 0]`; the returned pair is the spec-side summary of the constant
RV column `[5, 5]`. -/
theorem summarizer_refines_spec_witness :
    runTrials (fun _ => .ok [5, 2, 0, 0]) (fun _ _ => 0) (fun _ => 0) [1, 2] [1, 2]
      [0, 0] 0 4 [0, 1] [0, 50] 4 0 0 2 = .ok [[5, 2, 0, 0], [5, 2, 0, 0]] ∧
    sigmaClip 5 (column0 [[5, 2, 0, 0], [5, 2, 0, 0]]) ≠ [] ∧
    ppxf_MC (fun _ => .ok [5, 2, 0, 0]) (fun _ _ _ a b c => (a, b, c)) id id
      (fun _ _ => 0) (fun _ => 0) [1, 2] [1, 2] [0, 0] 0 [0, 50] 2 4 (some [0, 1]) 4
      0 5 none 0 1 =
      .ok (specSummarize (fun _ _ _ a b c => (a, b, c)) id id 5
        (column0 [[5, 2, 0, 0], [5, 2, 0, 0]])) :=
  ⟨by decide, by decide,
    summarizer_refines_spec (fun _ => .ok [5, 2, 0, 0]) (fun _ _ _ a b c => (a, b, c))
      id id (fun _ _ => 0) (fun _ => 0) [1, 2] [1, 2] [0, 0] 0 [0, 50] 2 4 [0, 1] 4
      0 5 0 1 [[5, 2, 0, 0], [5, 2, 0, 0]] (by decide) (by decide) (by decide)⟩

theorem summarizePlot_eq_noPlot (curveFit : CurveFitter) (qexp qsqrt : ℚ → ℚ)
    (clipped : List ℚ) :
    summarizePlot curveFit qexp qsqrt clipped =
      summarizeNoPlot curveFit qexp qsqrt clipped := rfl

/-- C9: supplying a spectrum identifier changes nothing about the returned
pair — for identical inputs and identical random draws, the plotting branch
(whose histogram comes from `plt.hist`) and the no-plot branch (whose
histogram comes from `np.histogram`) compute equal histogram values, bin
centers and Gaussian-fit inputs, so `ppxf_MC` returns the same value with
`spec_id` supplied as without; the only difference is the side effect of
writing the diagnostic file `<spec_id>_v_dist.png`, which is not modelled
in the returned value. -/
theorem spec_id_no_influence (f : Fitter) (curveFit : CurveFitter)
    (qexp qsqrt : ℚ → ℚ) (normals : ℕ → ℕ → ℚ) (uniforms : ℕ → ℚ)
    (log_template_f log_spec_f log_spec_err : List ℚ) (velscale : ℚ)
    (guesses : List ℚ) (nrand : ℕ) (degree : ℤ) (goodpixels : Option (List ℕ))
    (moments : ℕ) (vsyst sigma : ℚ) (RV_guess_var : ℚ) (n_CPU : ℤ) (s : String)
    (hs : s.isEmpty = false) :
    ppxf_MC f curveFit qexp qsqrt normals uniforms log_template_f log_spec_f
      log_spec_err velscale guesses nrand degree goodpixels moments vsyst sigma
      (some s) RV_guess_var n_CPU =
    ppxf_MC f curveFit qexp qsqrt normals uniforms log_template_f log_spec_f
      log_spec_err velscale guesses nrand degree goodpixels moments vsyst sigma
      none RV_guess_var n_CPU := by
  cases goodpixels with
  | none => rfl
  | some gp =>
    by_cases hn : n_CPU < 1
    · rw [ppxf_MC_some, ppxf_MC_some, if_pos hn, if_pos hn]
    · rw [ppxf_MC_some, ppxf_MC_some, if_neg hn, if_neg hn]
      cases hE : runTrials f normals uniforms log_template_f log_spec_f log_spec_err
        velscale degree gp guesses moments vsyst RV_guess_var nrand with
      | error e => rw [eBindErr, eBindErr]
      | ok E =>
        rw [eBindOk, eBindOk]
        cases hie : E.isEmpty
        · simp only [hie, Bool.false_eq_true, if_false, hs, summarizePlot_eq_noPlot]
        · simp only [hie, if_true]

/-- Witness for C9 at a concrete batch with identifier `"v1"`. -/
theorem spec_id_no_influence_witness :
    ppxf_MC (fun _ => .ok [5, 2, 0, 0]) (fun _ _ _ a b c => (a, b, c)) id id
      (fun _ _ => 0) (fun _ => 0) [1] [1] [1] 0 [0, 50] 2 4 (some [0]) 4 0 5
      (some "v1") 0 1 =
    ppxf_MC (fun _ => .ok [5, 2, 0, 0]) (fun _ _ _ a b c => (a, b, c)) id id
      (fun _ _ => 0) (fun _ => 0) [1] [1] [1] 0 [0, 50] 2 4 (some [0]) 4 0 5 none 0
      1 :=
  spec_id_no_influence (fun _ => .ok [5, 2, 0, 0]) (fun _ _ _ a b c => (a, b, c))
    id id (fun _ _ => 0) (fun _ => 0) [1] [1] [1] 0 [0, 50] 2 4 (some [0]) 4 0 5 0
    1 "v1" rfl

/-- C10: the external fitter's call interface.  First conjunct: the result
of `ppxf_MC` depends on the fitter only through its values on calls whose
`noise` argument is the all-ones array of the spectrum's length, whose
`quiet` flag is set, and whose additive `bias` term is zero — that is,
every invocation the batch makes has exactly those properties (lines 95 and
236-251).  Second conjunct: the caller's `log_spec_err` array is never
passed to the fitter; it influences the result only through the Monte-Carlo
perturbation of the spectrum, so two error arrays producing the same
perturbed spectra in every trial give identical results. -/
theorem fitter_interface_invariants (curveFit : CurveFitter) (qexp qsqrt : ℚ → ℚ)
    (normals : ℕ → ℕ → ℚ) (uniforms : ℕ → ℚ)
    (log_template_f log_spec_f : List ℚ) (velscale : ℚ) (guesses : List ℚ)
    (nrand : ℕ) (degree : ℤ) (gp : List ℕ) (moments : ℕ) (vsyst sigma : ℚ)
    (spec_id : Option String) (RV_guess_var : ℚ) (n_CPU : ℤ) :
    (∀ (f g : Fitter) (log_spec_err : List ℚ),
      (∀ c, c.noise = List.replicate log_spec_f.length (1 : ℚ) → c.quiet = true →
        c.bias = 0 → f c = g c) →
      ppxf_MC f curveFit qexp qsqrt normals uniforms log_template_f log_spec_f
        log_spec_err velscale guesses nrand degree (some gp) moments vsyst sigma
        spec_id RV_guess_var n_CPU =
      ppxf_MC g curveFit qexp qsqrt normals uniforms log_template_f log_spec_f
        log_spec_err velscale guesses nrand degree (some gp) moments vsyst sigma
        spec_id RV_guess_var n_CPU) ∧
    (∀ (f : Fitter) (err1 err2 : List ℚ),
      (∀ t, perturb log_spec_f err1 gp ((List.range gp.length).map (normals t)) =
        perturb log_spec_f err2 gp ((List.range gp.length).map (normals t))) →
      ppxf_MC f curveFit qexp qsqrt normals uniforms log_template_f log_spec_f err1
        velscale guesses nrand degree (some gp) moments vsyst sigma spec_id
        RV_guess_var n_CPU =
      ppxf_MC f curveFit qexp qsqrt normals uniforms log_template_f log_spec_f err2
        velscale guesses nrand degree (some gp) moments vsyst sigma spec_id
        RV_guess_var n_CPU) := by
  constructor
  · intro f g log_spec_err hfg
    by_cases hn : n_CPU < 1
    · rw [ppxf_MC_some, ppxf_MC_some, if_pos hn, if_pos hn]
    · rw [ppxf_MC_some, ppxf_MC_some, if_neg hn, if_neg hn]
      have hrt : runTrials f normals uniforms log_template_f log_spec_f log_spec_err
          velscale degree gp guesses moments vsyst RV_guess_var nrand =
          runTrials g normals uniforms log_template_f log_spec_f log_spec_err
          velscale degree gp guesses moments vsyst RV_guess_var nrand := by
        rw [runTrials, runTrials]
        apply emapM_congr
        intro t _
        simp only [ppxf_bootstrap]
        cases hp : perturb log_spec_f log_spec_err gp
          ((List.range gp.length).map (normals t)) with
        | error e => rw [eBindErr, eBindErr]
        | ok spec2 => rw [eBindOk, eBindOk, hfg _ rfl rfl rfl]
      rw [hrt]
  · intro f err1 err2 hp
    by_cases hn : n_CPU < 1
    · rw [ppxf_MC_some, ppxf_MC_some, if_pos hn, if_pos hn]
    · rw [ppxf_MC_some, ppxf_MC_some, if_neg hn, if_neg hn]
      have hrt : runTrials f normals uniforms log_template_f log_spec_f err1 velscale
          degree gp guesses moments vsyst RV_guess_var nrand =
          runTrials f normals uniforms log_template_f log_spec_f err2 velscale degree
          gp guesses moments vsyst RV_guess_var nrand := by
        rw [runTrials, runTrials]
        apply emapM_congr
        intro t _
        simp only [ppxf_bootstrap]
        rw [hp t]
      rw [hrt]

/-- Witness for C10: a fitter that fails on non-quiet calls agrees on the
batch with one that never fails, and two different error arrays with an
empty mask (hence identical — unperturbed — spectra) give identical
results. -/
theorem fitter_interface_invariants_witness :
    ppxf_MC (fun _ => .ok [3, 1]) (fun _ _ _ a b c => (a, b, c)) id id
      (fun _ _ => 0) (fun _ => 0) [1] [1] [5] 0 [0, 50] 1 4 (some []) 4 0 5 none 0
      1 =
    ppxf_MC (fun c => if c.quiet = true then .ok [3, 1] else .error .fitError)
      (fun _ _ _ a b c => (a, b, c)) id id (fun _ _ => 0) (fun _ => 0) [1] [1] [5] 0
      [0, 50] 1 4 (some []) 4 0 5 none 0 1 ∧
    ppxf_MC (fun _ => .ok [3, 1]) (fun _ _ _ a b c => (a, b, c)) id id
      (fun _ _ => 0) (fun _ => 0) [1] [1] [5] 0 [0, 50] 1 4 (some []) 4 0 5 none 0
      1 =
    ppxf_MC (fun _ => .ok [3, 1]) (fun _ _ _ a b c => (a, b, c)) id id
      (fun _ _ => 0) (fun _ => 0) [1] [1] [7] 0 [0, 50] 1 4 (some []) 4 0 5 none 0
      1 :=
  ⟨(fitter_interface_invariants (fun _ _ _ a b c => (a, b, c)) id id (fun _ _ => 0)
      (fun _ => 0) [1] [1] 0 [0, 50] 1 4 [] 4 0 5 none 0 1).1
      (fun _ => .ok [3, 1])
      (fun c => if c.quiet = true then .ok [3, 1] else .error .fitError) [5]
      (fun c _ hq _ => by simp only [hq, if_true]),
   (fitter_interface_invariants (fun _ _ _ a b c => (a, b, c)) id id (fun _ _ => 0)
      (fun _ => 0) [1] [1] 0 [0, 50] 1 4 [] 4 0 5 none 0 1).2
      (fun _ => .ok [3, 1]) [5] [7] (fun _ => rfl)⟩
